import Mathlib

/-!
Verification of the FEMS carbon-footprint backend (`src/server.js`).

The core of the program is three pure pieces of logic:
* `calculateDistance` — the Haversine great-circle distance (server.js lines 24–38);
* `getEmissionFactor` — emission factor from transport mode, fuel selection and
  cooling flag (server.js lines 41–94);
* the footprint pipeline of the POST `/api/calculate-carbon` handler
  (server.js lines 97–209): validation, total weight, distance, emission
  factor, carbon footprint, trees needed, persistence of the record.

Numbers are embedded as follows: JavaScript numbers that only undergo
rational arithmetic (emission factors, quantities) are modelled as `ℚ`,
which keeps them decidable; quantities entering trigonometry (coordinates,
distances) live in `ℝ`.  `Math.atan2` is modelled by the standard
mathematical atan2 given piecewise through `Real.arctan`.  JavaScript's
`x.toFixed(n)` followed by `parseFloat` is modelled by `roundTo n`
(round half up at the n-th decimal, matching ECMAScript's "pick the larger
candidate" tie rule).  Firestore is modelled as a list of records; the
server timestamp metadata fields (`calculatedAt`, `createdAt`) and the
opaque pass-through fields (`originDetails`, `destinationDetails`, `unit`,
`userId` payloads) that no claim touches are carried only where needed.
-/

/-- Mathematical atan2, modelling JavaScript's `Math.atan2(y, x)`:
the angle of the point (x, y), in (-π, π]. -/
noncomputable def atan2 (y x : ℝ) : ℝ :=
  if 0 < x then Real.arctan (y / x)
  else if x < 0 then
    (if 0 ≤ y then Real.arctan (y / x) + Real.pi else Real.arctan (y / x) - Real.pi)
  else
    (if 0 < y then Real.pi / 2 else if y < 0 then -(Real.pi / 2) else 0)

/-- Haversine distance, from `calculateDistance` in server.js lines 24–38:
R = 6371 km, dLat and dLon converted to radians, the haversine term `a`,
the angle `c = 2·atan2(√a, √(1−a))`, and the returned `R·c`. -/
noncomputable def calculateDistance (lat1 lon1 lat2 lon2 : ℝ) : ℝ :=
  let R : ℝ := 6371
  let dLat := (lat2 - lat1) * Real.pi / 180
  let dLon := (lon2 - lon1) * Real.pi / 180
  let a :=
    Real.sin (dLat / 2) * Real.sin (dLat / 2) +
      Real.cos (lat1 * Real.pi / 180) * Real.cos (lat2 * Real.pi / 180) *
        Real.sin (dLon / 2) * Real.sin (dLon / 2)
  let c := 2 * atan2 (Real.sqrt a) (Real.sqrt (1 - a))
  R * c

/-- The per-fuel factor table of server.js lines 53–58, as the association
list behind the JavaScript object `{diesel: 0.12, cng: 0.10, bev: 0.04, hvo: 0.08}`. -/
def fuelFactors : List (String × ℚ) :=
  [("diesel", 0.12), ("cng", 0.10), ("bev", 0.04), ("hvo", 0.08)]

/-- Emission factor, from `getEmissionFactor` in server.js lines 41–94.
`fuelTypes` models the JavaScript object of boolean fuel flags as an
association list; `Object.keys(fuelTypes).filter(key => fuelTypes[key])`
becomes filtering on the boolean and projecting the key.  The switch on
`transportMode` becomes an if-chain, `fuelFactors[fuel] || 0.12` becomes
lookup with default 0.12 (every table value is non-zero, so JavaScript's
`||` is exactly a default), and the final `if (cooledTransport)
emissionFactor *= 1.3` is the trailing conditional. -/
def getEmissionFactor (transportMode : String) (fuelTypes : List (String × Bool))
    (cooledTransport : Bool) : ℚ :=
  let base : ℚ :=
    if transportMode = "truck" then
      let selectedFuels := (fuelTypes.filter fun p => p.2).map fun p => p.1
      if selectedFuels.length > 0 then
        (selectedFuels.foldl (fun sum fuel => sum + ((fuelFactors.lookup fuel).getD 0.12)) 0) /
          (selectedFuels.length : ℚ)
      else 0.12
    else if transportMode = "ship" then 0.04
    else if transportMode = "plane" then 0.5
    else if transportMode = "train" then 0.03
    else if transportMode = "intermodal" then 0.08
    else 0.1
  if cooledTransport then base * 1.3 else base

/-- Per-fuel factor as the specification words it: diesel 0.12, cng 0.10,
bev 0.04, hvo 0.08, and any unrecognized fuel tag treated as 0.12. -/
def specFuelFactor (fuel : String) : ℚ :=
  if fuel = "diesel" then 0.12
  else if fuel = "cng" then 0.10
  else if fuel = "bev" then 0.04
  else if fuel = "hvo" then 0.08
  else 0.12

/-- Rounding to `n` decimal places, half up: models ECMAScript
`parseFloat(x.toFixed(n))` (toFixed picks the closest n-decimal value and
the larger one on ties). -/
noncomputable def roundTo (n : ℕ) (x : ℝ) : ℝ :=
  ((round (x * 10 ^ n) : ℤ) : ℝ) / 10 ^ n

/-- Geographic point, the `{lat, lng}` coordinate objects of the request. -/
structure GeoPoint where
  lat : ℝ
  lng : ℝ

/-- Input of the footprint computation, the validated fields the handler
feeds into the calculation (server.js lines 131–148). -/
structure CalculationInput where
  quantity : ℚ
  unit : String
  tonnesPerUnit : ℚ
  transportMode : String
  fuelTypes : List (String × Bool)
  cooled : Bool
  origin : GeoPoint
  destination : GeoPoint

/-- Derived results as the handler stores and returns them: `totalWeight`
raw, `distance` rounded to 2 decimals, `emissionFactor` rounded to 4,
`carbonFootprint` rounded to 2, `treesNeeded` an integer. -/
structure CalculationResult where
  totalWeight : ℝ
  distance : ℝ
  emissionFactor : ℝ
  carbonFootprint : ℝ
  treesNeeded : ℤ

/-- The footprint pipeline of the handler, server.js lines 131–148 and the
rounding applied when the record is built (lines 172–175):
`totalWeight = quantity * tonnesPerUnit`, Haversine distance between the
coordinates, emission factor, `carbonFootprint = totalWeight * distance *
emissionFactor`, and `treesNeeded = Math.ceil(carbonFootprint / 21)` taken
of the unrounded footprint. -/
noncomputable def computeFootprint (i : CalculationInput) : CalculationResult :=
  let totalWeight : ℝ := (i.quantity : ℝ) * (i.tonnesPerUnit : ℝ)
  let distance : ℝ :=
    calculateDistance i.origin.lat i.origin.lng i.destination.lat i.destination.lng
  let emissionFactor : ℝ := ((getEmissionFactor i.transportMode i.fuelTypes i.cooled : ℚ) : ℝ)
  let carbonFootprint : ℝ := totalWeight * distance * emissionFactor
  let treesNeeded : ℤ := ⌈carbonFootprint / 21⌉
  { totalWeight := totalWeight
    distance := roundTo 2 distance
    emissionFactor := roundTo 4 emissionFactor
    carbonFootprint := roundTo 2 carbonFootprint
    treesNeeded := treesNeeded }

/-- Body of a POST `/api/calculate-carbon` request (server.js lines 99–113).
Fields a JSON body may omit are `Option`; `cooledTransport` is used only
for its truthiness, so it is a `Bool`. -/
structure Request where
  userId : Option String
  quantity : Option ℚ
  unit : Option String
  tonnesPerUnit : Option ℚ
  cooledTransport : Bool
  transportMode : Option String
  fuelTypes : Option (List (String × Bool))
  origin : Option String
  destination : Option String
  originCoords : Option GeoPoint
  destinationCoords : Option GeoPoint

/-- JavaScript truthiness of an optional number: absent, null and 0 are
falsy. -/
def truthyNum : Option ℚ → Bool
  | none => false
  | some q => q ≠ 0

/-- JavaScript truthiness of an optional string: absent, null and the empty
string are falsy. -/
def truthyStr : Option String → Bool
  | none => false
  | some s => s ≠ ""

/-- A stored document of the `emissionCalculations` collection, server.js
lines 151–180 (the server-generated timestamps are not modelled). -/
structure Record where
  userId : String
  quantity : ℚ
  unit : Option String
  tonnesPerUnit : ℚ
  cooledTransport : Bool
  transportMode : String
  fuelTypes : List (String × Bool)
  origin : String
  destination : String
  originCoords : GeoPoint
  destinationCoords : GeoPoint
  result : CalculationResult

/-- Outcome of one POST `/api/calculate-carbon` call: HTTP status, response
message, the document written (if any), and the store afterwards. -/
structure HandlerResult where
  status : ℕ
  message : String
  saved : Option Record
  store : List Record

/-- The POST `/api/calculate-carbon` handler, server.js lines 97–209, over a
Firestore collection modelled as a list of records: the two validation
gates (lines 116–128), then the footprint pipeline, then the append of the
document (line 183) and the 200 response. -/
noncomputable def postCalculateCarbon (req : Request) (store : List Record) : HandlerResult :=
  if ¬(truthyNum req.quantity && truthyNum req.tonnesPerUnit && truthyStr req.transportMode &&
        truthyStr req.origin && truthyStr req.destination) then
    { status := 400, message := "Missing required fields", saved := none, store := store }
  else if ¬(req.originCoords.isSome && req.destinationCoords.isSome) then
    { status := 400, message := "Origin and destination coordinates are required",
      saved := none, store := store }
  else
    let input : CalculationInput :=
      { quantity := req.quantity.getD 0
        unit := req.unit.getD ""
        tonnesPerUnit := req.tonnesPerUnit.getD 0
        transportMode := req.transportMode.getD ""
        fuelTypes := req.fuelTypes.getD []
        cooled := req.cooledTransport
        origin := req.originCoords.getD ⟨0, 0⟩
        destination := req.destinationCoords.getD ⟨0, 0⟩ }
    let result := computeFootprint input
    let record : Record :=
      { userId := req.userId.getD "anonymous"
        quantity := input.quantity
        unit := req.unit
        tonnesPerUnit := input.tonnesPerUnit
        cooledTransport := req.cooledTransport
        transportMode := input.transportMode
        fuelTypes := input.fuelTypes
        origin := req.origin.getD ""
        destination := req.destination.getD ""
        originCoords := input.origin
        destinationCoords := input.destination
        result := result }
    { status := 200, message := "Calculation completed successfully",
      saved := some record, store := store ++ [record] }

/-- Haversine distance as section 4.1 of the specification words it:
dLat and dLon in radians, h the haversine term with squared sines,
c = 2·atan2(√h, √(1−h)), distance = R·c with R = 6371. -/
noncomputable def haversineSpec (a b : GeoPoint) : ℝ :=
  let dLat := (b.lat - a.lat) * Real.pi / 180
  let dLon := (b.lng - a.lng) * Real.pi / 180
  let h := Real.sin (dLat / 2) ^ 2 +
    Real.cos (a.lat * Real.pi / 180) * Real.cos (b.lat * Real.pi / 180) * Real.sin (dLon / 2) ^ 2
  let c := 2 * atan2 (Real.sqrt h) (Real.sqrt (1 - h))
  6371 * c

/-- First validation gate of the handler fires: one of the five required
fields is absent or falsy (server.js line 116). -/
def badFields (req : Request) : Prop :=
  truthyNum req.quantity = false ∨ truthyNum req.tonnesPerUnit = false ∨
    truthyStr req.transportMode = false ∨ truthyStr req.origin = false ∨
    truthyStr req.destination = false

/-- Second validation gate of the handler fires: a coordinate pair is
absent (server.js line 123). -/
def missingCoords (req : Request) : Prop :=
  req.originCoords = none ∨ req.destinationCoords = none

/-- A concrete shipment whose origin and destination coincide. -/
def selfShipment : CalculationInput :=
  { quantity := 10, unit := "pallets", tonnesPerUnit := 1, transportMode := "train",
    fuelTypes := [], cooled := false, origin := ⟨31.5, 74.3⟩, destination := ⟨31.5, 74.3⟩ }

/-- A concrete request whose quantity is 0, hence falsy, with every other
field present. -/
def zeroQuantityRequest : Request :=
  { userId := some "u1", quantity := some 0, unit := some "pallets",
    tonnesPerUnit := some 1, cooledTransport := false, transportMode := some "truck",
    fuelTypes := some [("diesel", true)], origin := some "Lahore",
    destination := some "Karachi", originCoords := some ⟨31.5, 74.3⟩,
    destinationCoords := some ⟨24.8, 67.0⟩ }

/-! ## Helper lemmas -/

/-- Folding addition of a mapped value equals the initial value plus the sum
of the mapped list. -/
lemma foldl_add_map (g : String → ℚ) :
    ∀ (l : List String) (init : ℚ),
      l.foldl (fun sum fuel => sum + g fuel) init = init + (l.map g).sum := by
  intro l
  induction l with
  | nil => intro init; simp
  | cons a t ih =>
    intro init
    simp only [List.foldl_cons, List.map_cons, List.sum_cons, ih]
    ring

/-- Looking a fuel up in the factor table with default 0.12 agrees with the
specification's per-fuel factor function. -/
lemma fuelFactors_lookup_eq_spec (fuel : String) :
    (fuelFactors.lookup fuel).getD 0.12 = specFuelFactor fuel := by
  by_cases h1 : fuel = "diesel"
  · subst h1; rfl
  by_cases h2 : fuel = "cng"
  · subst h2; rfl
  by_cases h3 : fuel = "bev"
  · subst h3; rfl
  by_cases h4 : fuel = "hvo"
  · subst h4; rfl
  have e1 : (fuel == "diesel") = false := beq_eq_false_iff_ne.mpr h1
  have e2 : (fuel == "cng") = false := beq_eq_false_iff_ne.mpr h2
  have e3 : (fuel == "bev") = false := beq_eq_false_iff_ne.mpr h3
  have e4 : (fuel == "hvo") = false := beq_eq_false_iff_ne.mpr h4
  simp [fuelFactors, specFuelFactor, List.lookup, e1, e2, e3, e4, h1, h2, h3, h4]

/-- Arctangent is nonnegative on nonnegative arguments. -/
lemma arctan_nonneg_of_nonneg {x : ℝ} (hx : 0 ≤ x) : 0 ≤ Real.arctan x := by
  have h := Real.arctan_strictMono.monotone hx
  rwa [Real.arctan_zero] at h

/-- atan2 of a nonnegative ordinate is nonnegative (the angle lies in the
upper closed half-plane, hence in [0, π]). -/
lemma atan2_nonneg {y x : ℝ} (hy : 0 ≤ y) : 0 ≤ atan2 y x := by
  unfold atan2
  have harc := Real.neg_pi_div_two_lt_arctan (y / x)
  have hpi := Real.pi_pos
  split_ifs with hx1 hx2 hy1 hy2 <;>
    first
      | exact arctan_nonneg_of_nonneg (div_nonneg hy hx1.le)
      | linarith

/-- atan2 at the point (1, 0): the angle of the positive x-axis is 0. -/
lemma atan2_zero_one : atan2 0 1 = 0 := by
  unfold atan2
  rw [if_pos one_pos, zero_div, Real.arctan_zero]

/-- atan2 on the diagonal, positive coordinates: the angle is π/4. -/
lemma atan2_diag {s : ℝ} (hs : 0 < s) : atan2 s s = Real.pi / 4 := by
  unfold atan2
  rw [if_pos hs, div_self (ne_of_gt hs), Real.arctan_one]

/-- Haversine distance of a point to itself vanishes. -/
lemma calculateDistance_self (lat lon : ℝ) : calculateDistance lat lon lat lon = 0 := by
  simp only [calculateDistance, sub_self, zero_mul, zero_div, Real.sin_zero, mul_zero,
    zero_add, add_zero, Real.sqrt_zero, sub_zero, Real.sqrt_one, atan2_zero_one]

/-- Haversine distance is symmetric in its two points. -/
lemma calculateDistance_symm (lat1 lon1 lat2 lon2 : ℝ) :
    calculateDistance lat1 lon1 lat2 lon2 = calculateDistance lat2 lon2 lat1 lon1 := by
  simp only [calculateDistance]
  have hLat : (lat1 - lat2) * Real.pi / 180 / 2 = -((lat2 - lat1) * Real.pi / 180 / 2) := by
    ring
  have hLon : (lon1 - lon2) * Real.pi / 180 / 2 = -((lon2 - lon1) * Real.pi / 180 / 2) := by
    ring
  rw [hLat, hLon]
  simp only [Real.sin_neg]
  ring_nf

/-- The Haversine angle term 6371·(2·atan2(√A, √(1−A))) is nonnegative for
any haversine value A. -/
lemma haversine_nonneg (A : ℝ) :
    0 ≤ 6371 * (2 * atan2 (Real.sqrt A) (Real.sqrt (1 - A))) := by
  have h : 0 ≤ atan2 (Real.sqrt A) (Real.sqrt (1 - A)) := atan2_nonneg (Real.sqrt_nonneg _)
  linarith

/-- Haversine distance is never negative. -/
lemma calculateDistance_nonneg (lat1 lon1 lat2 lon2 : ℝ) :
    0 ≤ calculateDistance lat1 lon1 lat2 lon2 := by
  simp only [calculateDistance]
  exact haversine_nonneg _

/-! ## Claim theorems -/

/-- C2: for mode 'truck' with cooling off, a non-empty fuel selection makes
`getEmissionFactor` return the arithmetic mean of the per-fuel factors
(diesel 0.12, cng 0.10, bev 0.04, hvo 0.08, unrecognized tags counting
0.12), and an empty selection leaves the base factor 0.12. -/
theorem c2_truck_fuel_mean (fuels : List (String × Bool)) :
    getEmissionFactor "truck" fuels false =
      if ((fuels.filter fun p => p.2).map fun p => p.1) = [] then 0.12
      else (((fuels.filter fun p => p.2).map fun p => p.1).map specFuelFactor).sum /
        ((((fuels.filter fun p => p.2).map fun p => p.1).length : ℚ)) := by
  by_cases h : ((fuels.filter fun p => p.2).map fun p => p.1) = []
  · simp [getEmissionFactor, h]
  · have hlen : ((fuels.filter fun p => p.2).map fun p => p.1).length > 0 :=
      List.length_pos.mpr h
    rw [if_neg h]
    simp only [getEmissionFactor, Bool.false_eq_true, if_false]
    rw [if_pos trivial, if_pos hlen]
    simp [foldl_add_map, fuelFactors_lookup_eq_spec]

/-- C3: the cooling penalty is a flat multiplication by 1.3 applied after
mode and fuel resolution, for every mode and fuel selection. -/
theorem c3_cooling_multiplier (mode : String) (fuels : List (String × Bool)) :
    getEmissionFactor mode fuels true = 1.3 * getEmissionFactor mode fuels false := by
  simp only [getEmissionFactor, if_true, Bool.false_eq_true, if_false]
  ring

/-- C4: with cooling off the non-truck modes get their fixed base factors
(ship 0.04, plane 0.5, train 0.03, intermodal 0.08), any unrecognized mode
gets the fallback 0.10, and the fuel selection plays no role in these. -/
theorem c4_base_factors (mode : String) (fuels : List (String × Bool))
    (h : mode ∉ ["truck", "ship", "plane", "train", "intermodal"]) :
    getEmissionFactor "ship" fuels false = 0.04 ∧
      getEmissionFactor "plane" fuels false = 0.5 ∧
      getEmissionFactor "train" fuels false = 0.03 ∧
      getEmissionFactor "intermodal" fuels false = 0.08 ∧
      getEmissionFactor mode fuels false = 0.1 := by
  simp only [List.mem_cons, List.not_mem_nil, or_false, not_or] at h
  obtain ⟨h1, h2, h3, h4, h5⟩ := h
  refine ⟨?_, ?_, ?_, ?_, ?_⟩ <;> simp [getEmissionFactor, h1, h2, h3, h4, h5]

/-- C4 witness: the mode string 'unknown-mode' is outside the recognized
set and resolves to the fallback 0.10, the fixed modes to their bases. -/
theorem c4_base_factors_witness :
    ("unknown-mode" ∉ ["truck", "ship", "plane", "train", "intermodal"]) ∧
      (getEmissionFactor "ship" [("diesel", true)] false = 0.04 ∧
        getEmissionFactor "plane" [("diesel", true)] false = 0.5 ∧
        getEmissionFactor "train" [("diesel", true)] false = 0.03 ∧
        getEmissionFactor "intermodal" [("diesel", true)] false = 0.08 ∧
        getEmissionFactor "unknown-mode" [("diesel", true)] false = 0.1) :=
  ⟨by decide, c4_base_factors "unknown-mode" [("diesel", true)] (by decide)⟩

/-- C1: the footprint pipeline computes totalWeightTonnes = quantity ×
tonnesPerUnit, carbonFootprintKg = totalWeightTonnes × distanceKm ×
emissionFactor with the distance from `calculateDistance` and the factor
from `getEmissionFactor`, presents distance/factor/footprint rounded to
2/4/2 decimals, and takes treesNeeded = ⌈carbonFootprintKg / 21⌉ of the
unrounded footprint, not of the 2-decimal presentation value. -/
theorem c1_footprint_pipeline (i : CalculationInput) :
    (computeFootprint i).totalWeight = (i.quantity : ℝ) * (i.tonnesPerUnit : ℝ) ∧
      (computeFootprint i).distance =
        roundTo 2 (calculateDistance i.origin.lat i.origin.lng i.destination.lat
          i.destination.lng) ∧
      (computeFootprint i).emissionFactor =
        roundTo 4 ((getEmissionFactor i.transportMode i.fuelTypes i.cooled : ℚ) : ℝ) ∧
      (computeFootprint i).carbonFootprint =
        roundTo 2 ((i.quantity : ℝ) * (i.tonnesPerUnit : ℝ) *
          calculateDistance i.origin.lat i.origin.lng i.destination.lat i.destination.lng *
          ((getEmissionFactor i.transportMode i.fuelTypes i.cooled : ℚ) : ℝ)) ∧
      (computeFootprint i).treesNeeded =
        ⌈(i.quantity : ℝ) * (i.tonnesPerUnit : ℝ) *
          calculateDistance i.origin.lat i.origin.lng i.destination.lat i.destination.lng *
          ((getEmissionFactor i.transportMode i.fuelTypes i.cooled : ℚ) : ℝ) / 21⌉ :=
  ⟨rfl, rfl, rfl, rfl, rfl⟩

/-- C7: when origin and destination coincide the computed distance is 0,
the carbon footprint is 0 and treesNeeded is 0. -/
theorem c7_self_shipment (i : CalculationInput) (h : i.origin = i.destination) :
    (computeFootprint i).distance = 0 ∧ (computeFootprint i).carbonFootprint = 0 ∧
      (computeFootprint i).treesNeeded = 0 := by
  have hd : calculateDistance i.origin.lat i.origin.lng i.destination.lat
      i.destination.lng = 0 := by
    rw [h]
    exact calculateDistance_self _ _
  simp [computeFootprint, roundTo, hd]

/-- C7 witness: a concrete train shipment of 10 units of 1 tonne between
identical coordinates yields distance 0, footprint 0 and 0 trees. -/
theorem c7_self_shipment_witness :
    selfShipment.origin = selfShipment.destination ∧
      ((computeFootprint selfShipment).distance = 0 ∧
        (computeFootprint selfShipment).carbonFootprint = 0 ∧
        (computeFootprint selfShipment).treesNeeded = 0) :=
  ⟨rfl, c7_self_shipment selfShipment rfl⟩

/-- C9: the handler's computation is deterministic and free of hidden
state: the status, the message and the stored calculation produced for a
request do not depend on the prior contents of the document store, so two
runs on identical inputs produce identical results. -/
theorem c9_pure_computation (req : Request) (s1 s2 : List Record) :
    (postCalculateCarbon req s1).status = (postCalculateCarbon req s2).status ∧
      (postCalculateCarbon req s1).message = (postCalculateCarbon req s2).message ∧
      (postCalculateCarbon req s1).saved = (postCalculateCarbon req s2).saved := by
  simp only [postCalculateCarbon]
  split_ifs <;> exact ⟨rfl, rfl, rfl⟩

/-- C10: the POST handler answers 400 before computing or persisting
anything whenever one of quantity, tonnesPerUnit, transportMode, origin,
destination is absent or falsy (message 'Missing required fields'), and
likewise when a coordinate pair is absent. -/
theorem c10_validation (req : Request) (store : List Record)
    (h : badFields req ∨ missingCoords req) :
    (postCalculateCarbon req store).status = 400 ∧
      (postCalculateCarbon req store).saved = none ∧
      (postCalculateCarbon req store).store = store ∧
      (badFields req → (postCalculateCarbon req store).message = "Missing required fields") := by
  by_cases hb : badFields req
  · rcases hb with h1 | h1 | h1 | h1 | h1 <;>
      exact ⟨by simp [postCalculateCarbon, h1], by simp [postCalculateCarbon, h1],
        by simp [postCalculateCarbon, h1], fun _ => by simp [postCalculateCarbon, h1]⟩
  · have hb' := hb
    simp only [badFields, not_or, Bool.not_eq_false] at hb'
    obtain ⟨h1, h2, h3, h4, h5⟩ := hb'
    rcases h with hbf | hmc
    · exact absurd hbf hb
    · rcases hmc with hc | hc <;>
        exact ⟨by simp [postCalculateCarbon, h1, h2, h3, h4, h5, hc],
          by simp [postCalculateCarbon, h1, h2, h3, h4, h5, hc],
          by simp [postCalculateCarbon, h1, h2, h3, h4, h5, hc],
          fun hf => absurd hf hb⟩

/-- C10 witness: a request with quantity 0 and every other field present is
rejected with 400 'Missing required fields' and nothing is persisted. -/
theorem c10_validation_witness :
    (badFields zeroQuantityRequest ∨ missingCoords zeroQuantityRequest) ∧
      ((postCalculateCarbon zeroQuantityRequest []).status = 400 ∧
        (postCalculateCarbon zeroQuantityRequest []).saved = none ∧
        (postCalculateCarbon zeroQuantityRequest []).store = [] ∧
        (badFields zeroQuantityRequest →
          (postCalculateCarbon zeroQuantityRequest []).message = "Missing required fields")) :=
  ⟨Or.inl (Or.inl (by decide)),
    c10_validation zeroQuantityRequest [] (Or.inl (Or.inl (by decide)))⟩

/-- C5: `calculateDistance` implements the specification's Haversine
formula with R = 6371 km for every pair of inputs. -/
theorem c5_haversine_refinement (a b : GeoPoint) :
    calculateDistance a.lat a.lng b.lat b.lng = haversineSpec a b := by
  simp only [calculateDistance, haversineSpec]
  ring_nf

/-- C6: on valid coordinates the Haversine distance is symmetric, zero on
equal points, and never negative. -/
theorem c6_metric_properties (lat1 lon1 lat2 lon2 : ℝ)
    (h1 : -90 ≤ lat1) (h2 : lat1 ≤ 90) (h3 : -180 ≤ lon1) (h4 : lon1 ≤ 180)
    (h5 : -90 ≤ lat2) (h6 : lat2 ≤ 90) (h7 : -180 ≤ lon2) (h8 : lon2 ≤ 180) :
    calculateDistance lat1 lon1 lat2 lon2 = calculateDistance lat2 lon2 lat1 lon1 ∧
      calculateDistance lat1 lon1 lat1 lon1 = 0 ∧
      0 ≤ calculateDistance lat1 lon1 lat2 lon2 :=
  ⟨calculateDistance_symm lat1 lon1 lat2 lon2, calculateDistance_self lat1 lon1,
    calculateDistance_nonneg lat1 lon1 lat2 lon2⟩

/-- C6 witness: the metric properties instantiated at the valid points
(0, 0) and (10, 20). -/
theorem c6_metric_properties_witness :
    (-90 ≤ (0 : ℝ)) ∧ ((0 : ℝ) ≤ 90) ∧ (-180 ≤ (0 : ℝ)) ∧ ((0 : ℝ) ≤ 180) ∧
      (-90 ≤ (10 : ℝ)) ∧ ((10 : ℝ) ≤ 90) ∧ (-180 ≤ (20 : ℝ)) ∧ ((20 : ℝ) ≤ 180) ∧
      (calculateDistance 0 0 10 20 = calculateDistance 10 20 0 0 ∧
        calculateDistance 0 0 0 0 = 0 ∧ 0 ≤ calculateDistance 0 0 10 20) :=
  ⟨by norm_num, by norm_num, by norm_num, by norm_num, by norm_num, by norm_num,
    by norm_num, by norm_num,
    c6_metric_properties 0 0 10 20 (by norm_num) (by norm_num) (by norm_num) (by norm_num)
      (by norm_num) (by norm_num) (by norm_num) (by norm_num)⟩

/-- C8: the distance from (0, 0) to (0, 90) is the quarter great-circle
6371·π/2, which lies within 0.1 km of 10007.5 km. -/
theorem c8_quarter_great_circle :
    calculateDistance 0 0 0 90 = 6371 * Real.pi / 2 ∧
      |calculateDistance 0 0 0 90 - 10007.5| < 0.1 := by
  have heq : calculateDistance 0 0 0 90 = 6371 * Real.pi / 2 := by
    simp only [calculateDistance]
    have e0 : ((0 : ℝ) - 0) * Real.pi / 180 / 2 = 0 := by ring
    have e1 : ((90 : ℝ) - 0) * Real.pi / 180 / 2 = Real.pi / 4 := by ring
    have e2 : (0 : ℝ) * Real.pi / 180 = 0 := by ring
    rw [e0, e1, e2, Real.sin_zero, Real.cos_zero]
    have e3 : (0 : ℝ) * 0 + 1 * 1 * Real.sin (Real.pi / 4) * Real.sin (Real.pi / 4)
        = 1 / 2 := by
      rw [Real.sin_pi_div_four]
      have h2 : Real.sqrt 2 * Real.sqrt 2 = 2 := Real.mul_self_sqrt (by norm_num)
      nlinarith [h2]
    rw [e3]
    have e4 : (1 : ℝ) - 1 / 2 = 1 / 2 := by norm_num
    rw [e4]
    have hpos : 0 < Real.sqrt (1 / 2) := Real.sqrt_pos.mpr (by norm_num)
    rw [atan2_diag hpos]
    ring
  refine ⟨heq, ?_⟩
  rw [heq, abs_lt]
  have hgt := Real.pi_gt_d6
  have hlt := Real.pi_lt_d6
  constructor <;> nlinarith [hgt, hlt]
